import Mathlib

/-!
Shallow embedding of `bbm.py` (BestBuy phone-plan scraper): the Offer /
Carrier / Phone data model, the carrier-name lookup, the pricing-payload
normalization performed inside `scrape_carrier_data`, the retry loop around
the pricing fetch, and the CSV report writer `write_to_csv`.

Python scalar values that can occur in the JSON pricing payload are modelled
by `PyVal` (strings, ints, floats, null).  Float values are modelled exactly
by `Dec`, a decimal mantissa/exponent pair: the payload's float values are
decimal literals, and every arithmetic operation the source performs on them
(scaling by 24, addition, subtraction, parsing a decimal string) is closed
over exact decimals, so this model agrees with the source wherever the
decimals involved are exactly representable as floats — which covers every
numeric input appearing in the claims.  Exceptions raised during one
normalization attempt are modelled by `Except PyErr`.
-/

namespace BBM

/-- An exact decimal number `mant / 10 ^ exp`: the model of a Python float
value.  Not necessarily reduced; all observations (sign, zeroness,
formatting) are representation-independent. -/
structure Dec where
  mant : ℤ
  exp : ℕ
  deriving DecidableEq

/-- The decimal value of an integer. -/
def Dec.ofInt (n : ℤ) : Dec := ⟨n, 0⟩

/-- Addition of decimals, aligning the exponents. -/
def Dec.add (a b : Dec) : Dec :=
  let e := max a.exp b.exp
  ⟨a.mant * 10 ^ (e - a.exp) + b.mant * 10 ^ (e - b.exp), e⟩

/-- Subtraction of decimals, aligning the exponents. -/
def Dec.sub (a b : Dec) : Dec :=
  let e := max a.exp b.exp
  ⟨a.mant * 10 ^ (e - a.exp) - b.mant * 10 ^ (e - b.exp), e⟩

/-- A decimal scaled by an integer. -/
def Dec.mulInt (a : Dec) (n : ℤ) : Dec := ⟨a.mant * n, a.exp⟩

/-- The rational value a decimal denotes (used only to state properties). -/
def Dec.toQ (a : Dec) : ℚ := (a.mant : ℚ) / (10 : ℚ) ^ a.exp

/-- A Python scalar value as it appears in the pricing payload or in an
`Offer` field: `str`, `int`, `float` (an exact decimal), or `None`. -/
inductive PyVal where
  | pstr (s : String)
  | pint (n : ℤ)
  | pfloat (d : Dec)
  | pnone
  deriving DecidableEq

/-- The kinds of Python exception that the normalization code can raise. -/
inductive PyErr where
  | indexError
  | keyError
  | typeError
  | valueError
  | nameError
  deriving DecidableEq

/-- A JSON object of the pricing payload: an association list of fields. -/
abbrev JObj : Type := List (String × PyVal)

/-- Numeric `PyVal`s (`int` or `float`); `isinstance(x, (int, float))`. -/
def PyVal.isNum : PyVal → Bool
  | .pint _ => true
  | .pfloat _ => true
  | _ => false

/-- The decimal value of a numeric `PyVal` (0 on non-numbers). -/
def PyVal.toDec : PyVal → Dec
  | .pint n => Dec.ofInt n
  | .pfloat d => d
  | _ => Dec.ofInt 0

/-- Python truthiness: `0`, `0.0`, `""` and `None` are falsy. -/
def pyTruthy : PyVal → Bool
  | .pstr s => s ≠ ""
  | .pint n => n ≠ 0
  | .pfloat d => d.mant ≠ 0
  | .pnone => false

/-- Python string repetition `s * n` (empty for non-positive `n`). -/
def strRepeat (s : String) (n : ℤ) : String :=
  String.join (List.replicate n.toNat s)

/-- Python `v * n` for an `int` literal `n` on the right: numbers scale,
strings repeat, `None` raises `TypeError`. -/
def pyMulInt : PyVal → ℤ → Except PyErr PyVal
  | .pint m, n => .ok (.pint (m * n))
  | .pfloat d, n => .ok (.pfloat (d.mulInt n))
  | .pstr s, n => .ok (.pstr (strRepeat s n))
  | .pnone, _ => .error .typeError

/-- Python `a + b`: int+int is int, any float makes a float, str+str
concatenates, every other combination raises `TypeError`. -/
def pyAdd : PyVal → PyVal → Except PyErr PyVal
  | .pint a, .pint b => .ok (.pint (a + b))
  | .pint a, .pfloat b => .ok (.pfloat ((Dec.ofInt a).add b))
  | .pfloat a, .pint b => .ok (.pfloat (a.add (Dec.ofInt b)))
  | .pfloat a, .pfloat b => .ok (.pfloat (a.add b))
  | .pstr a, .pstr b => .ok (.pstr (a ++ b))
  | _, _ => .error .typeError

/-- Python `a - b`: defined on numbers only (int-int is int, any float makes
a float); every other combination raises `TypeError`. -/
def pySub : PyVal → PyVal → Except PyErr PyVal
  | .pint a, .pint b => .ok (.pint (a - b))
  | .pint a, .pfloat b => .ok (.pfloat ((Dec.ofInt a).sub b))
  | .pfloat a, .pint b => .ok (.pfloat (a.sub (Dec.ofInt b)))
  | .pfloat a, .pfloat b => .ok (.pfloat (a.sub b))
  | _, _ => .error .typeError

/-- One character of a decimal literal. -/
def isDigitChar (c : Char) : Bool := '0' ≤ c && c ≤ '9'

/-- Parse a list of digit characters into a natural number. -/
def digitsToNat (l : List Char) : ℕ :=
  l.foldl (fun acc c => acc * 10 + (c.toNat - '0'.toNat)) 0

/-- Parse the body of a decimal float literal `digits[.digits]`; `none` on
anything else (exponent forms are outside the scope of this model). -/
def parseDecBody (l : List Char) : Option Dec :=
  let intPart := l.takeWhile isDigitChar
  let rest := l.dropWhile isDigitChar
  match rest with
  | [] => if intPart.isEmpty then none else some (Dec.ofInt (digitsToNat intPart))
  | '.' :: fracPart =>
    if fracPart.all isDigitChar && (!intPart.isEmpty || !fracPart.isEmpty) then
      some ⟨(digitsToNat intPart : ℤ) * 10 ^ fracPart.length + (digitsToNat fracPart : ℤ),
            fracPart.length⟩
    else none
  | _ => none

/-- The negation of a decimal. -/
def Dec.neg (a : Dec) : Dec := ⟨-a.mant, a.exp⟩

/-- Python `float(x)`: numbers convert, decimal string literals (with an
optional sign) parse, other strings raise `ValueError`, `None` raises
`TypeError`. -/
def pyFloat : PyVal → Except PyErr Dec
  | .pint n => .ok (Dec.ofInt n)
  | .pfloat d => .ok d
  | .pstr s =>
    match s.toList with
    | '-' :: rest => match parseDecBody rest with
      | some d => .ok d.neg
      | none => .error .valueError
    | '+' :: rest => match parseDecBody rest with
      | some d => .ok d
      | none => .error .valueError
    | l => match parseDecBody l with
      | some d => .ok d
      | none => .error .valueError
  | .pnone => .error .typeError

/-- Render a natural number below 100 with exactly two digits. -/
def twoDigitStr (n : ℕ) : String :=
  if n < 10 then "0" ++ toString n else toString n

/-- Python `f-string` formatting with format spec `.2f` on a decimal value:
round `100 * value` to the nearest integer (ties to even, as Python float
formatting does) and render it with two fractional digits. -/
def formatF2 (d : Dec) : String :=
  let num : ℤ := d.mant * 100
  let den : ℤ := (10 : ℤ) ^ d.exp
  let q : ℤ := Int.fdiv num den
  let r : ℤ := num - q * den
  let n : ℤ :=
    if 2 * r < den then q
    else if den < 2 * r then q + 1
    else if q % 2 = 0 then q else q + 1
  let a : ℕ := n.natAbs
  (if n < 0 then "-" else "") ++ toString (a / 100) ++ "." ++ twoDigitStr (a % 100)

/-- Left-pad the decimal rendering of `n` with zeros to `k` digits. -/
def padDigits (k : ℕ) (n : ℕ) : String :=
  let s := toString n
  String.mk (List.replicate (k - s.length) '0') ++ s

/-- Strip factors of ten shared by the mantissa and the exponent, so the
fractional rendering has no trailing zeros. -/
def normExp : ℤ → ℕ → ℤ × ℕ
  | m, 0 => (m, 0)
  | m, e + 1 => if m % 10 = 0 then normExp (m / 10) e else (m, e + 1)

/-- Python `str(x)` on a float value: the shortest exact decimal rendering,
with at least one fractional digit (`str(1030.0) = "1030.0"`). -/
def pyStrFloat (d : Dec) : String :=
  let p := normExp d.mant d.exp
  let a : ℕ := p.1.natAbs
  if p.2 = 0 then
    (if p.1 < 0 then "-" else "") ++ toString a ++ ".0"
  else
    (if p.1 < 0 then "-" else "") ++ toString (a / 10 ^ p.2) ++ "." ++ padDigits p.2 (a % 10 ^ p.2)

/-- Python `str(x)` on a `PyVal` (also the stringification `csv.writer`
applies to each cell). -/
def pyStr : PyVal → String
  | .pstr s => s
  | .pint n => toString n
  | .pfloat d => pyStrFloat d
  | .pnone => "None"

/-- Python `f"{x:.2f}"` on a `PyVal`: numbers format, everything else raises
`ValueError` (unknown format code for the operand type). -/
def pyFormatF2 : PyVal → Except PyErr String
  | .pint n => .ok (formatF2 (Dec.ofInt n))
  | .pfloat d => .ok (formatF2 d)
  | _ => .error .valueError


instance {ε α : Type} [DecidableEq ε] [DecidableEq α] : DecidableEq (Except ε α) := fun a b =>
  match a, b with
  | .ok x, .ok y => if h : x = y then .isTrue (by rw [h]) else .isFalse (by simp [h])
  | .error x, .error y => if h : x = y then .isTrue (by rw [h]) else .isFalse (by simp [h])
  | .ok _, .error _ => .isFalse (by simp)
  | .error _, .ok _ => .isFalse (by simp)

/-- Python `str.lower()` (the URLs involved are ASCII, where `Char.toLower`
agrees with Python). -/
def pyLower (s : String) : String :=
  String.mk (s.toList.map Char.toLower)

/-- Python `str.replace(old, new)` for single-character `old`/`new`. -/
def replaceChar (s : String) (oldc newc : Char) : String :=
  String.mk (s.toList.map (fun c => if c = oldc then newc else c))

/-- `pat` is a contiguous prefix of `l` (character lists). -/
def startsWithL : List Char → List Char → Bool
  | [], _ => true
  | _ :: _, [] => false
  | p :: ps, c :: cs => p == c && startsWithL ps cs

/-- `pat` occurs as a contiguous sublist of `l` (character lists). -/
def containsSub (pat : List Char) : List Char → Bool
  | [] => pat.isEmpty
  | c :: cs => startsWithL pat (c :: cs) || containsSub pat cs

/-- Python `needle in hay` on strings: substring containment. -/
def pyIn (needle hay : String) : Bool :=
  containsSub needle.toList hay.toList

/-- One pricing scenario for a carrier/SKU (`@dataclass Offer`).  The source
annotates every field as `str` but Python does not enforce that: fields taken
straight from the payload keep their native value, so the fields are
`PyVal`s. -/
structure Offer where
  price_after_gc : PyVal
  gift_card : PyVal
  total_price : PyVal
  monthly_price : PyVal
  down_payment : PyVal
  bib_premium : PyVal
  bib_monthly : PyVal
  down_return : PyVal
  deriving DecidableEq

/-- A named distribution channel for a phone (`@dataclass Carrier`). -/
structure Carrier where
  name : String
  link : String
  offers : List Offer
  deriving DecidableEq

/-- A named product with its carriers (`@dataclass Phone`). -/
structure Phone where
  name : String
  carriers : List Carrier
  deriving DecidableEq

/-- The fixed substring-to-label table of `extract_carrier_name`, in the
source's dict insertion order. -/
def carriers_table : List (String × String) :=
  [("telus", "Telus"), ("koodo", "Koodo"), ("rogers", "Rogers"),
   ("fido", "Fido"), ("freedom-mobile", "Freedom Mobile"), ("bell", "Bell"),
   ("virgin-plus", "Virgin Plus")]

/-- `BestBuyScraper.extract_carrier_name`: first table entry whose key is a
substring of the lowercased URL wins; no match gives `"Unknown"`. -/
def extract_carrier_name (url : String) : String :=
  match carriers_table.find? (fun kv => pyIn kv.1 (pyLower url)) with
  | some kv => kv.2
  | none => "Unknown"

/-- The local variables of `scrape_carrier_data` that are assigned only
inside the `keep-it` branch but read unconditionally afterwards.  `none`
means "never assigned in this call": reading it raises `NameError`. -/
structure Scope where
  total_price : Option PyVal
  price_after_gc : Option PyVal
  deriving DecidableEq

/-- The scope at function entry: neither variable assigned yet. -/
def Scope.empty : Scope := ⟨none, none⟩

/-- Reading a scope variable: `NameError` when it was never assigned. -/
def readVar : Option PyVal → Except PyErr PyVal
  | some v => .ok v
  | none => .error .nameError

/-- `l[i]` on the payload list: `IndexError` when out of range. -/
def getItem (l : List JObj) (i : ℕ) : Except PyErr JObj :=
  match l.get? i with
  | some o => .ok o
  | none => .error .indexError

/-- `o[k]` on a payload object: `KeyError` when the field is missing. -/
def getKey (o : JObj) (k : String) : Except PyErr PyVal :=
  match o.find? (fun kv => kv.1 == k) with
  | some kv => .ok kv.2
  | none => .error .keyError

/-- Lines 138-142 of `scrape_carrier_data`: the `keep-it` branch.  Returns
the (possibly updated) `monthly_price` / `down_payment` locals and the scope
holding `total_price` / `price_after_gc`; on an exception the scope reflects
the assignments made before the raise. -/
def keepItBranch (scope : Scope) (e0 : JObj) (gift_card : PyVal) :
    Except PyErr (PyVal × PyVal) × Scope :=
  match getKey e0 "monthly" with
  | .error e => (.error e, scope)
  | .ok monthly_price =>
    match getKey e0 "downPayment" with
    | .error e => (.error e, scope)
    | .ok down_payment =>
      match pyMulInt monthly_price 24 with
      | .error e => (.error e, scope)
      | .ok prod =>
        match pyAdd prod down_payment with
        | .error e => (.error e, scope)
        | .ok total_price =>
          let scope1 : Scope := { scope with total_price := some total_price }
          if pyTruthy gift_card then
            match pySub total_price gift_card with
            | .error e => (.error e, scope1)
            | .ok pagc =>
              (.ok (monthly_price, down_payment),
               { scope1 with price_after_gc := some pagc })
          else
            (.ok (monthly_price, down_payment),
             { scope1 with price_after_gc := some total_price })

/-- Lines 144-151 of `scrape_carrier_data`: the `return-it` ("BIB") branch.
Returns `(bib_premium, bib_monthly, down_return)`; when the branch guard
fails all three stay at their `"N/A"` defaults.  Inside the f-string of line
150 the operands evaluate left to right: the read of `total_price` (a
`NameError` when unassigned) precedes `float(bib_down_payment)`. -/
def returnItBranch (scope : Scope) (rd : List JObj) :
    Except PyErr (PyVal × PyVal × PyVal) :=
  match rd.get? 1 with
  | none => .ok (.pstr "N/A", .pstr "N/A", .pstr "N/A")
  | some e1 =>
    match getKey e1 "type" with
    | .error e => .error e
    | .ok t =>
      if t = .pstr "return-it" then
        match getKey e1 "monthly" with
        | .error e => .error e
        | .ok bib_monthly =>
          match getKey e1 "residualValue" with
          | .error e => .error e
          | .ok down_return =>
            match getKey e1 "downPayment" with
            | .error e => .error e
            | .ok bib_down_payment =>
              match bib_monthly with
              | .pfloat bq =>
                match readVar scope.total_price with
                | .error e => .error e
                | .ok tp =>
                  match pySub tp (.pfloat (bq.mulInt 24)) with
                  | .error e => .error e
                  | .ok diff1 =>
                    match pyFloat bib_down_payment with
                    | .error e => .error e
                    | .ok dq =>
                      match pySub diff1 (.pfloat dq) with
                      | .error e => .error e
                      | .ok diff2 =>
                        match pyFormatF2 diff2 with
                        | .error e => .error e
                        | .ok s => .ok (.pstr s, bib_monthly, down_return)
              | _ => .ok (.pstr "N/A", bib_monthly, down_return)
      else
        .ok (.pstr "N/A", .pstr "N/A", .pstr "N/A")

/-- Lines 129-166 of `scrape_carrier_data`: one normalization attempt on a
decoded payload `rd`, starting from the scope left by earlier attempts of
the same call.  Produces the `Offer` of the success path, or the exception
the attempt raises, together with the scope after the attempt. -/
def attemptNorm (scope : Scope) (rd : List JObj) : Except PyErr Offer × Scope :=
  match getItem rd 0 with
  | .error e => (.error e, scope)
  | .ok e0 =>
    match getKey e0 "type" with
    | .error e => (.error e, scope)
    | .ok plan_type =>
      match getKey e0 "giftCard" with
      | .error e => (.error e, scope)
      | .ok gift_card =>
        match
          (if plan_type = .pstr "keep-it" then
            keepItBranch scope e0 gift_card
          else
            (.ok (.pstr "N/A", .pstr "N/A"), scope)) with
        | (.error e, scope1) => (.error e, scope1)
        | (.ok (monthly_price, down_payment), scope1) =>
          match returnItBranch scope1 rd with
          | .error e => (.error e, scope1)
          | .ok (bib_premium, bib_monthly, down_return) =>
            match readVar scope1.price_after_gc with
            | .error e => (.error e, scope1)
            | .ok pagc =>
              match readVar scope1.total_price with
              | .error e => (.error e, scope1)
              | .ok tp =>
                match pyFormatF2 tp with
                | .error e => (.error e, scope1)
                | .ok tps =>
                  (.ok { price_after_gc := .pstr (pyStr pagc),
                         gift_card := gift_card,
                         total_price := .pstr tps,
                         monthly_price := monthly_price,
                         down_payment := down_payment,
                         bib_premium := bib_premium,
                         bib_monthly := bib_monthly,
                         down_return := down_return }, scope1)

/-- What the network does on one attempt of the retry loop: either
`session.get` raises a transport-level exception, or it yields a response
with an HTTP status and a body (`response.json()` either decodes to a
payload list or raises). -/
inductive FetchResult where
  | transportError
  | response (status : ℤ) (body : Except PyErr (List JObj))

/-- `max_retries = 3` of `scrape_carrier_data`. -/
def max_retries : ℕ := 3

/-- The all-sentinel `Offer` built after the retry loop is exhausted
(lines 181-190). -/
def sentinelOffer : Offer :=
  { price_after_gc := .pstr "N/A", gift_card := .pstr "0",
    total_price := .pstr "N/A", monthly_price := .pstr "N/A",
    down_payment := .pstr "N/A", bib_premium := .pstr "N/A",
    bib_monthly := .pstr "N/A", down_return := .pstr "N/A" }

/-- The `while attempt <= max_retries` loop of lines 121-191, indexed by the
remaining number of iterations (`fuel = max_retries - attempt + 1`).  `net`
gives the network's behaviour at each attempt number; the second component
of the result counts the `time.sleep(2)` retry delays performed.  A non-2xx
status returns an empty-offer Carrier at once; an exception from the attempt
sleeps only while `attempt < max_retries`; exhausting the loop returns the
all-sentinel Carrier. -/
def retryLoop (name link : String) (net : ℕ → FetchResult) :
    ℕ → ℕ → Scope → ℕ → Carrier × ℕ
  | 0, _, _, sleeps => (⟨name, link, [sentinelOffer]⟩, sleeps)
  | fuel + 1, attempt, scope, sleeps =>
    match net attempt with
    | .transportError =>
      retryLoop name link net fuel (attempt + 1) scope
        (if attempt < max_retries then sleeps + 1 else sleeps)
    | .response status body =>
      if status ≠ 200 then (⟨name, link, []⟩, sleeps)
      else
        match body with
        | .error _ =>
          retryLoop name link net fuel (attempt + 1) scope
            (if attempt < max_retries then sleeps + 1 else sleeps)
        | .ok rd =>
          match attemptNorm scope rd with
          | (.ok offer, _) => (⟨name, link, [offer]⟩, sleeps)
          | (.error _, scope1) =>
            retryLoop name link net fuel (attempt + 1) scope1
              (if attempt < max_retries then sleeps + 1 else sleeps)

/-- `BestBuyScraper.scrape_carrier_data`: the carrier name comes from the
URL, the loop starts at attempt 1 with an empty scope and no sleeps.  The
network is abstracted by `net`. -/
def scrape_carrier_data (url link : String) (net : ℕ → FetchResult) :
    Carrier × ℕ :=
  retryLoop (extract_carrier_name url) link net max_retries 1 Scope.empty 0

/-- `BestBuyScraper.scrape` on an already-parsed source document: each entry
is a top-level tag name with the list of its URL children; the display name
replaces underscores with spaces, and each URL is fetched with
`scrape_carrier_data` (the URL doubles as the link). -/
def scrape (doc : List (String × List String))
    (net : String → ℕ → FetchResult) : List Phone :=
  doc.map (fun pn =>
    ⟨replaceChar pn.1 '_' ' ',
     pn.2.map (fun u => (scrape_carrier_data u u (net u)).1)⟩)

/-- The fixed CSV header row of `write_to_csv`. -/
def headers : List String :=
  ["Phone", "Carrier", "Price After GC", "Gift Card Amount", "Total Price",
   "Monthly Price", "Downpayment", "BIB Premium", "BIB Monthly Price",
   "BIB Downpayment", "Link"]

/-- The fixed canonical carrier order of `write_to_csv`. -/
def carrier_order : List String :=
  ["Fido", "Rogers", "Virgin Plus", "Bell", "Koodo", "Telus", "Freedom Mobile"]

/-- The dict comprehension `{carrier.name: carrier for carrier in
phone.carriers}` as a lookup: iterating in list order, a later carrier with
the same name overwrites an earlier one. -/
def carrier_map (carriers : List Carrier) (k : String) : Option Carrier :=
  carriers.foldl (fun acc c => if c.name = k then some c else acc) none

/-- The row written for one offer of a present carrier (lines 213-225);
`csv.writer` stringifies each cell with `str`. -/
def offerRow (p : Phone) (c : Carrier) (o : Offer) : List String :=
  [p.name, c.name, pyStr o.price_after_gc, pyStr o.gift_card,
   pyStr o.total_price, pyStr o.monthly_price, pyStr o.down_payment,
   pyStr o.bib_premium, pyStr o.bib_monthly, pyStr o.down_return, c.link]

/-- The placeholder row written for a canonical carrier the phone lacks
(lines 227-231): phone name, carrier name, then nine `"--"` cells. -/
def placeholderRow (p : Phone) (cname : String) : List String :=
  [p.name, cname, "--", "--", "--", "--", "--", "--", "--", "--", "--"]

/-- The rows one canonical carrier name contributes for one phone: one row
per offer of the (last) carrier with that name, or the single placeholder
row when the phone has no such carrier. -/
def rowsForName (p : Phone) (cname : String) : List (List String) :=
  match carrier_map p.carriers cname with
  | some c => c.offers.map (offerRow p c)
  | none => [placeholderRow p cname]

/-- All data rows written for one phone: the canonical carriers in order. -/
def phoneRows (p : Phone) : List (List String) :=
  (carrier_order.map (rowsForName p)).flatten

/-- `write_to_csv` as the list of rows it writes: header first, then each
phone's rows in phone order. -/
def write_to_csv (phones : List Phone) : List (List String) :=
  headers :: (phones.map phoneRows).flatten

/-! ### Helper lemmas -/

theorem getKey_error_eq {o : JObj} {k : String} {e : PyErr}
    (h : getKey o k = .error e) : e = .keyError := by
  unfold getKey at h
  split at h <;> simp_all

theorem pySub_error_eq {a b : PyVal} {e : PyErr}
    (h : pySub a b = .error e) : e = .typeError := by
  cases a <;> cases b <;> simp_all [pySub]

theorem pyFloat_error_ne_name {v : PyVal} {e : PyErr}
    (h : pyFloat v = .error e) : e ≠ .nameError := by
  cases v with
  | pstr s =>
    simp only [pyFloat] at h
    split at h <;> split at h <;> (try simp_all) <;> (subst h; decide)
  | pint n => simp [pyFloat] at h
  | pfloat d => simp [pyFloat] at h
  | pnone => simp [pyFloat] at h; subst h; decide

theorem pyFormatF2_error_eq {v : PyVal} {e : PyErr}
    (h : pyFormatF2 v = .error e) : e = .valueError := by
  cases v <;> simp_all [pyFormatF2]

theorem carrier_map_foldl (k : String) (cs : List Carrier) :
    ∀ init : Option Carrier,
      cs.foldl (fun acc c => if c.name = k then some c else acc) init
        = (cs.reverse.find? (fun c => c.name == k)).or init := by
  induction cs with
  | nil => intro init; simp
  | cons c cs ih =>
    intro init
    simp only [List.foldl_cons, ih, List.reverse_cons, List.find?_append]
    cases hf : cs.reverse.find? (fun c => c.name == k) with
    | some d => simp [Option.or]
    | none =>
      by_cases h : c.name = k
      · simp [Option.or, List.find?, h]
      · have hb : (c.name == k) = false := beq_eq_false_iff_ne.mpr h
        simp [Option.or, List.find?, hb, h]

/-- The dict comprehension keeps the last carrier with a given name. -/
theorem carrier_map_eq_find? (cs : List Carrier) (k : String) :
    carrier_map cs k = cs.reverse.find? (fun c => c.name == k) := by
  simpa using carrier_map_foldl k cs none

theorem carrier_map_name {cs : List Carrier} {k : String} {c : Carrier}
    (h : carrier_map cs k = some c) : c.name = k := by
  rw [carrier_map_eq_find?] at h
  simpa using List.find?_some h

theorem carrier_map_mem {cs : List Carrier} {k : String} {c : Carrier}
    (h : carrier_map cs k = some c) : c ∈ cs := by
  rw [carrier_map_eq_find?] at h
  have := List.mem_of_find?_eq_some h
  simpa using this

theorem offerRow_cell1 (p : Phone) (c : Carrier) (o : Offer) :
    (offerRow p c o)[1]? = some c.name := rfl

theorem placeholderRow_cell1 (p : Phone) (cname : String) :
    (placeholderRow p cname)[1]? = some cname := rfl

theorem rowsForName_some {p : Phone} {cn : String} {c : Carrier}
    (h : carrier_map p.carriers cn = some c) :
    rowsForName p cn = c.offers.map (offerRow p c) := by
  unfold rowsForName; rw [h]

theorem rowsForName_none {p : Phone} {cn : String}
    (h : carrier_map p.carriers cn = none) :
    rowsForName p cn = [placeholderRow p cn] := by
  unfold rowsForName; rw [h]

theorem filter_rowsForName (p : Phone) (cn cname : String) :
    (rowsForName p cn).filter (fun r => r.get? 1 == some cname)
      = if cn = cname then rowsForName p cn else [] := by
  cases hm : carrier_map p.carriers cn with
  | none =>
    rw [rowsForName_none hm]
    by_cases h : cn = cname
    · subst h; simp [placeholderRow]
    · have hb : (cn == cname) = false := beq_eq_false_iff_ne.mpr h
      simp [placeholderRow, h, hb]
  | some c =>
    have hname : c.name = cn := carrier_map_name hm
    rw [rowsForName_some hm]
    by_cases h : cn = cname
    · subst h
      rw [if_pos rfl]
      apply List.filter_eq_self.mpr
      intro r hr
      obtain ⟨o, _, rfl⟩ := List.mem_map.mp hr
      simp [List.get?_eq_getElem?, offerRow_cell1, hname]
    · rw [if_neg h]
      apply List.filter_eq_nil_iff.mpr
      intro r hr
      obtain ⟨o, _, rfl⟩ := List.mem_map.mp hr
      simp [List.get?_eq_getElem?, offerRow_cell1, hname, h]

theorem filter_rows_not_mem (p : Phone) (cname : String) (ns : List String)
    (h : cname ∉ ns) :
    ((ns.map (rowsForName p)).flatten).filter (fun r => r.get? 1 == some cname) = [] := by
  induction ns with
  | nil => simp
  | cons n ns ih =>
    have hn : n ≠ cname := fun he => h (he ▸ List.mem_cons_self n ns)
    have hns : cname ∉ ns := fun he => h (List.mem_cons_of_mem n he)
    rw [List.map_cons, List.flatten_cons, List.filter_append, filter_rowsForName,
      if_neg hn, ih hns, List.nil_append]

theorem filter_rows_unique (p : Phone) (cname : String) (ns : List String)
    (hmem : cname ∈ ns) (hnodup : ns.Nodup) :
    ((ns.map (rowsForName p)).flatten).filter (fun r => r.get? 1 == some cname)
      = rowsForName p cname := by
  induction ns with
  | nil => cases hmem
  | cons n ns ih =>
    rw [List.map_cons, List.flatten_cons, List.filter_append, filter_rowsForName]
    rcases List.mem_cons.mp hmem with h | h
    · subst h
      have hnot : cname ∉ ns := (List.nodup_cons.mp hnodup).1
      rw [if_pos rfl, filter_rows_not_mem p cname ns hnot, List.append_nil]
    · have hn : n ≠ cname := fun he => (List.nodup_cons.mp hnodup).1 (he ▸ h)
      rw [if_neg hn, ih h (List.nodup_cons.mp hnodup).2, List.nil_append]

theorem rowsForName_length_one (p : Phone)
    (h : ∀ c ∈ p.carriers, c.offers.length = 1) (cn : String) :
    (rowsForName p cn).length = 1 := by
  cases hm : carrier_map p.carriers cn with
  | none => rw [rowsForName_none hm]; rfl
  | some c =>
    rw [rowsForName_some hm, List.length_map]
    exact h c (carrier_map_mem hm)

/-! ### Claims -/

/-- C1, counterexample: a source document with one phone and one (Fido)
carrier URL whose pricing fetch returns HTTP 404 produces a carrier with an
empty offers list; the report for that phone then has only 6 data rows (the
present Fido carrier contributes no row and no placeholder), so the written
CSV has 7 lines (header + 6), not the 8 the claimed "exactly 7 data rows per
phone" would give. -/
theorem claim1_cex :
    ((scrape [("Pixel_8", ["fido"])] (fun _ _ => .response 404 (.ok []))).map
      (fun p => (phoneRows p).length)) = [6] ∧
    (write_to_csv (scrape [("Pixel_8", ["fido"])]
      (fun _ _ => .response 404 (.ok [])))).length = 7 := by
  decide

/-- C1, amended: a phone's block of the report has exactly 7 data rows (one
per canonical carrier, regardless of how many carrier URLs the phone has and
of their names) provided every carrier record of the phone holds exactly one
offer; a carrier record with an empty offers list (the non-2xx fetch path)
contributes zero rows instead, lowering the count. -/
theorem claim1_rows (p : Phone) (h : ∀ c ∈ p.carriers, c.offers.length = 1) :
    (phoneRows p).length = 7 := by
  unfold phoneRows carrier_order
  simp [List.length_flatten, rowsForName_length_one p h]

/-- C1, witness: the amended row-count theorem applied to a phone with a
single one-offer carrier. -/
theorem claim1_witness :
    (phoneRows ⟨"X", [⟨"Fido", "l", [sentinelOffer]⟩]⟩).length = 7 :=
  claim1_rows _ (by decide)

/-- C2: on the pricing payload
`[{"type": "keep-it", "monthly": 45.0, "downPayment": 0, "giftCard": 50}]`
the success path of the fetcher returns one Offer whose `total_price` is the
2-decimal-formatted string `"1080.00"` while `price_after_gc` is the plain
`str()` of the subtraction result, `"1030.0"` — the subtraction result is
not run through the 2-decimal formatting. -/
theorem claim2_offer :
    ((scrape_carrier_data "https://www.bestbuy.ca/en-ca/product/fido-phone/123" "link"
      (fun _ => .response 200 (.ok
        [[("type", .pstr "keep-it"), ("monthly", .pfloat ⟨450, 1⟩),
          ("downPayment", .pint 0), ("giftCard", .pint 50)]]))).1.offers.map
      (fun o => (o.total_price, o.price_after_gc)))
      = [(.pstr "1080.00", .pstr "1030.0")] := by
  decide

/-- C7, counterexample: the placeholder row written for a missing carrier
has `"--"` in all nine cells after the phone and carrier names — including
the last (Link) cell, which the claim says is omitted/blank. -/
theorem claim7_cex :
    (write_to_csv [⟨"X", []⟩]).get? 1
        = some ["X", "Fido", "--", "--", "--", "--", "--", "--", "--", "--", "--"] ∧
    (["X", "Fido", "--", "--", "--", "--", "--", "--", "--", "--", "--"].getLast?
        = some "--") := by
  decide

/-- C7, amended: for every phone lacking a canonical carrier, the report
contains a placeholder row for that carrier consisting of the phone name,
the carrier name, and nine `"--"` cells — every value field is `"--"` and so
is the link column (it is not blank). -/
theorem claim7_placeholder (p : Phone) (cname : String)
    (h1 : cname ∈ carrier_order) (h2 : carrier_map p.carriers cname = none) :
    p.name :: cname :: List.replicate 9 "--" ∈ phoneRows p := by
  unfold phoneRows
  refine List.mem_flatten.mpr ⟨rowsForName p cname, List.mem_map_of_mem _ h1, ?_⟩
  rw [rowsForName_none h2]
  simp [placeholderRow]

/-- C7, witness: the amended placeholder theorem applied to a phone with no
carriers at all and the canonical name Fido. -/
theorem claim7_witness :
    "X" :: "Fido" :: List.replicate 9 "--" ∈ phoneRows ⟨"X", []⟩ :=
  claim7_placeholder ⟨"X", []⟩ "Fido" (by decide) (by decide)

/-- C10: when a phone has several carrier records with the same canonical
name, the report's rows under that carrier name are exactly the offer rows
of the *last* such record (the name-keyed dict built by `write_to_csv` lets
later records overwrite earlier ones), so the offers and links of all
earlier records with that name are dropped, and each canonical name yields
at most one group of rows. -/
theorem claim10_last_wins (p : Phone) (cname : String) (c : Carrier)
    (h1 : cname ∈ carrier_order)
    (h2 : p.carriers.reverse.find? (fun x => x.name == cname) = some c) :
    (phoneRows p).filter (fun r => r.get? 1 == some cname)
      = c.offers.map (offerRow p c) := by
  have hmap : carrier_map p.carriers cname = some c := by
    rw [carrier_map_eq_find?]; exact h2
  unfold phoneRows
  rw [filter_rows_unique p cname carrier_order h1 (by decide), rowsForName_some hmap]

/-- C10, witness: a phone with two Fido records; only the second record's
offer row is emitted. -/
theorem claim10_witness :
    (phoneRows ⟨"X", [⟨"Fido", "l1", [sentinelOffer]⟩,
        ⟨"Fido", "l2", [{ sentinelOffer with gift_card := .pstr "9" }]⟩]⟩).filter
      (fun r => r.get? 1 == some "Fido")
      = [offerRow ⟨"X", [⟨"Fido", "l1", [sentinelOffer]⟩,
          ⟨"Fido", "l2", [{ sentinelOffer with gift_card := .pstr "9" }]⟩]⟩
          ⟨"Fido", "l2", [{ sentinelOffer with gift_card := .pstr "9" }]⟩
          { sentinelOffer with gift_card := .pstr "9" }] :=
  claim10_last_wins _ "Fido" ⟨"Fido", "l2", [{ sentinelOffer with gift_card := .pstr "9" }]⟩
    (by decide) (by decide)

theorem scrape_transport_all (url link : String) (net : ℕ → FetchResult)
    (h1 : net 1 = .transportError) (h2 : net 2 = .transportError)
    (h3 : net 3 = .transportError) :
    scrape_carrier_data url link net
      = (⟨extract_carrier_name url, link, [sentinelOffer]⟩, 2) := by
  simp [scrape_carrier_data, retryLoop, max_retries, h1, h2, h3]

theorem scrape_non2xx (url link : String) (net : ℕ → FetchResult)
    (status : ℤ) (body : Except PyErr (List JObj))
    (hstat : status ≠ 200) (h1 : net 1 = .response status body) :
    scrape_carrier_data url link net = (⟨extract_carrier_name url, link, []⟩, 0) := by
  simp [scrape_carrier_data, retryLoop, max_retries, h1, hstat]

theorem scrape_success (url link : String) (net : ℕ → FetchResult)
    (rd : List JObj) (offer : Offer) (scope1 : Scope)
    (h1 : net 1 = .response 200 (.ok rd))
    (h2 : attemptNorm Scope.empty rd = (.ok offer, scope1)) :
    scrape_carrier_data url link net
      = (⟨extract_carrier_name url, link, [offer]⟩, 0) := by
  simp [scrape_carrier_data, retryLoop, max_retries, h1, h2]

theorem retryLoop_le_one (name link : String) (net : ℕ → FetchResult) :
    ∀ fuel attempt scope sleeps,
      ((retryLoop name link net fuel attempt scope sleeps).1).offers.length ≤ 1 := by
  intro fuel
  induction fuel with
  | zero => intro attempt scope sleeps; simp [retryLoop, sentinelOffer]
  | succ n ih =>
    intro attempt scope sleeps
    simp only [retryLoop]
    split
    · exact ih _ _ _
    · split
      · simp
      · split
        · exact ih _ _ _
        · split
          · simp
          · exact ih _ _ _

/-- C3, counterexample: a URL containing both `telus` and `koodo` resolves
to `"Telus"`, not `"Koodo"`, because `telus` precedes `koodo` in the lookup
table and the first match wins — refuting "a URL containing koodo anywhere
always resolves to Koodo". -/
theorem claim3_cex :
    pyIn "koodo" (pyLower "https://telus-koodo.example/phone") = true ∧
    extract_carrier_name "https://telus-koodo.example/phone" = "Telus" ∧
    "Telus" ≠ "Koodo" := by
  decide

/-- C3, amended: a URL containing `koodo` case-insensitively resolves to
`"Koodo"` provided it does not also contain `telus` (which is tested first
in table order); and a URL containing none of the seven known carrier
substrings resolves to `"Unknown"`. -/
theorem claim3_lookup :
    (∀ url : String, pyIn "koodo" (pyLower url) = true →
      pyIn "telus" (pyLower url) = false → extract_carrier_name url = "Koodo") ∧
    (∀ url : String, (∀ kv ∈ carriers_table, pyIn kv.1 (pyLower url) = false) →
      extract_carrier_name url = "Unknown") := by
  constructor
  · intro url h1 h2
    simp [extract_carrier_name, carriers_table, List.find?, h1, h2]
  · intro url h
    unfold extract_carrier_name
    rw [List.find?_eq_none.mpr]
    intro kv hkv
    simp [h kv hkv]

/-- C3, witness: the amended lookup theorem applied to a koodo-only URL and
to a URL with no carrier substring. -/
theorem claim3_witness :
    extract_carrier_name "https://www.koodo.example/a" = "Koodo" ∧
    extract_carrier_name "https://example.org/a" = "Unknown" :=
  ⟨claim3_lookup.1 _ (by decide) (by decide), claim3_lookup.2 _ (by decide)⟩

/-- C4: when all three attempts of a pricing fetch raise a transport-level
exception, the fetcher returns a Carrier with exactly one all-sentinel Offer
(every field `"N/A"`, gift card `"0"`), after exactly 2 retry delays (none
after the final attempt); the function returns normally, so the failure is
not fatal to the run. -/
theorem claim4_retry (url link : String) (net : ℕ → FetchResult)
    (h1 : net 1 = .transportError) (h2 : net 2 = .transportError)
    (h3 : net 3 = .transportError) :
    scrape_carrier_data url link net
      = (⟨extract_carrier_name url, link,
          [⟨.pstr "N/A", .pstr "0", .pstr "N/A", .pstr "N/A", .pstr "N/A",
            .pstr "N/A", .pstr "N/A", .pstr "N/A"⟩]⟩, 2) :=
  scrape_transport_all url link net h1 h2 h3

/-- C4, witness: the retry-exhaustion theorem at a network that always
raises. -/
theorem claim4_witness :
    scrape_carrier_data "fido" "fido" (fun _ => .transportError)
      = (⟨extract_carrier_name "fido", "fido",
          [⟨.pstr "N/A", .pstr "0", .pstr "N/A", .pstr "N/A", .pstr "N/A",
            .pstr "N/A", .pstr "N/A", .pstr "N/A"⟩]⟩, 2) :=
  claim4_retry _ _ _ rfl rfl rfl

/-- C5: when the first attempt of a pricing fetch receives a non-2xx HTTP
status (e.g. 404), the fetcher returns immediately with a Carrier whose
offers list is empty — zero Offers, not a sentinel-filled one — and no
retry delay occurs. -/
theorem claim5_non2xx (url link : String) (net : ℕ → FetchResult)
    (status : ℤ) (body : Except PyErr (List JObj))
    (hstat : status ≠ 200) (h1 : net 1 = .response status body) :
    scrape_carrier_data url link net = (⟨extract_carrier_name url, link, []⟩, 0) :=
  scrape_non2xx url link net status body hstat h1

/-- C5, witness: the non-2xx theorem at a network answering 404. -/
theorem claim5_witness :
    scrape_carrier_data "fido" "l" (fun _ => .response 404 (.ok []))
      = (⟨extract_carrier_name "fido", "l", []⟩, 0) :=
  claim5_non2xx "fido" "l" _ 404 (.ok []) (by decide) rfl

/-- C9: for every product URL and every network behaviour the Carrier the
pricing fetcher returns carries at most one Offer; specifically it carries
exactly one when all three attempts raise (retry exhaustion), zero when the
first response is non-2xx, and exactly one when the first attempt succeeds
and normalizes. -/
theorem claim9_at_most_one (url link : String) (net : ℕ → FetchResult) :
    (scrape_carrier_data url link net).1.offers.length ≤ 1 ∧
    (net 1 = .transportError → net 2 = .transportError → net 3 = .transportError →
      (scrape_carrier_data url link net).1.offers.length = 1) ∧
    (∀ status body, status ≠ 200 → net 1 = .response status body →
      (scrape_carrier_data url link net).1.offers.length = 0) ∧
    (∀ rd offer scope1, net 1 = .response 200 (.ok rd) →
      attemptNorm Scope.empty rd = (.ok offer, scope1) →
      (scrape_carrier_data url link net).1.offers.length = 1) := by
  refine ⟨retryLoop_le_one (extract_carrier_name url) link net max_retries 1 Scope.empty 0,
    ?_, ?_, ?_⟩
  · intro h1 h2 h3
    rw [scrape_transport_all url link net h1 h2 h3]
    rfl
  · intro status body hstat h1
    rw [scrape_non2xx url link net status body hstat h1]
    rfl
  · intro rd offer scope1 h1 h2
    rw [scrape_success url link net rd offer scope1 h1 h2]
    rfl

/-- C9, witness: the at-most-one invariant instantiated on the three path
shapes: all-transport-errors, a 404 first response, and a successful
normalizing first response. -/
theorem claim9_witness :
    (scrape_carrier_data "fido" "l" (fun _ => .transportError)).1.offers.length = 1 ∧
    (scrape_carrier_data "fido" "l" (fun _ => .response 404 (.ok []))).1.offers.length = 0 ∧
    (scrape_carrier_data "fido" "l" (fun _ => .response 200 (.ok
      [[("type", .pstr "keep-it"), ("monthly", .pint 1), ("downPayment", .pint 0),
        ("giftCard", .pint 0)]]))).1.offers.length = 1 := by
  refine ⟨(claim9_at_most_one "fido" "l" _).2.1 rfl rfl rfl,
    (claim9_at_most_one "fido" "l" _).2.2.1 404 (.ok []) (by decide) rfl,
    (claim9_at_most_one "fido" "l" _).2.2.2
      [[("type", .pstr "keep-it"), ("monthly", .pint 1), ("downPayment", .pint 0),
        ("giftCard", .pint 0)]]
      ⟨.pstr "24", .pint 0, .pstr "24.00", .pint 1, .pint 0, .pstr "N/A",
        .pstr "N/A", .pstr "N/A"⟩
      ⟨some (.pint 24), some (.pint 24)⟩ rfl (by decide)⟩

theorem pyMulInt_num (v : PyVal) (n : ℤ) (h : v.isNum = true) :
    ∃ w, pyMulInt v n = .ok w ∧ w.isNum = true ∧ w.toDec = v.toDec.mulInt n := by
  cases v with
  | pint m => exact ⟨.pint (m * n), rfl, rfl, rfl⟩
  | pfloat d => exact ⟨.pfloat (d.mulInt n), rfl, rfl, rfl⟩
  | pstr s => simp [PyVal.isNum] at h
  | pnone => simp [PyVal.isNum] at h

theorem pyAdd_num (a b : PyVal) (ha : a.isNum = true) (hb : b.isNum = true) :
    ∃ w, pyAdd a b = .ok w ∧ w.isNum = true ∧ w.toDec = a.toDec.add b.toDec := by
  cases a with
  | pint m =>
    cases b with
    | pint k =>
      refine ⟨.pint (m + k), rfl, rfl, ?_⟩
      simp [PyVal.toDec, Dec.add, Dec.ofInt]
    | pfloat d => exact ⟨.pfloat ((Dec.ofInt m).add d), rfl, rfl, rfl⟩
    | pstr s => simp [PyVal.isNum] at hb
    | pnone => simp [PyVal.isNum] at hb
  | pfloat d =>
    cases b with
    | pint k => exact ⟨.pfloat (d.add (Dec.ofInt k)), rfl, rfl, rfl⟩
    | pfloat e => exact ⟨.pfloat (d.add e), rfl, rfl, rfl⟩
    | pstr s => simp [PyVal.isNum] at hb
    | pnone => simp [PyVal.isNum] at hb
  | pstr s => simp [PyVal.isNum] at ha
  | pnone => simp [PyVal.isNum] at ha

theorem pySub_num (a b : PyVal) (ha : a.isNum = true) (hb : b.isNum = true) :
    ∃ w, pySub a b = .ok w ∧ w.isNum = true ∧ w.toDec = a.toDec.sub b.toDec := by
  cases a with
  | pint m =>
    cases b with
    | pint k =>
      refine ⟨.pint (m - k), rfl, rfl, ?_⟩
      simp [PyVal.toDec, Dec.sub, Dec.ofInt]
    | pfloat d => exact ⟨.pfloat ((Dec.ofInt m).sub d), rfl, rfl, rfl⟩
    | pstr s => simp [PyVal.isNum] at hb
    | pnone => simp [PyVal.isNum] at hb
  | pfloat d =>
    cases b with
    | pint k => exact ⟨.pfloat (d.sub (Dec.ofInt k)), rfl, rfl, rfl⟩
    | pfloat e => exact ⟨.pfloat (d.sub e), rfl, rfl, rfl⟩
    | pstr s => simp [PyVal.isNum] at hb
    | pnone => simp [PyVal.isNum] at hb
  | pstr s => simp [PyVal.isNum] at ha
  | pnone => simp [PyVal.isNum] at ha

theorem pySub_num_pfloat (tp : PyVal) (x : Dec) (h : tp.isNum = true) :
    pySub tp (.pfloat x) = .ok (.pfloat (tp.toDec.sub x)) := by
  cases tp <;> simp_all [pySub, PyVal.isNum, PyVal.toDec]

theorem pyFloat_num (v : PyVal) (h : v.isNum = true) :
    pyFloat v = .ok v.toDec := by
  cases v <;> simp_all [pyFloat, PyVal.isNum, PyVal.toDec]

theorem pyFormatF2_num (v : PyVal) (h : v.isNum = true) :
    pyFormatF2 v = .ok (formatF2 v.toDec) := by
  cases v <;> simp_all [pyFormatF2, PyVal.isNum, PyVal.toDec]

theorem keepItBranch_num (scope : Scope) (e0 : JObj) (m0 d0 g : PyVal)
    (hm : getKey e0 "monthly" = .ok m0) (hd : getKey e0 "downPayment" = .ok d0)
    (hm0 : m0.isNum = true) (hd0 : d0.isNum = true) (hg : g.isNum = true) :
    ∃ tp pagc : PyVal,
      keepItBranch scope e0 g = (.ok (m0, d0), ⟨some tp, some pagc⟩) ∧
      tp.isNum = true ∧ tp.toDec = (m0.toDec.mulInt 24).add d0.toDec := by
  obtain ⟨w1, hw1, hw1n, hw1d⟩ := pyMulInt_num m0 24 hm0
  obtain ⟨w2, hw2, hw2n, hw2d⟩ := pyAdd_num w1 d0 hw1n hd0
  unfold keepItBranch
  simp only [hm, hd, hw1, hw2]
  by_cases hgt : pyTruthy g = true
  · obtain ⟨w3, hw3, hw3n, hw3d⟩ := pySub_num w2 g hw2n hg
    simp only [if_pos hgt, hw3]
    exact ⟨w2, w3, rfl, hw2n, by rw [hw2d, hw1d]⟩
  · simp only [if_neg hgt]
    exact ⟨w2, w2, rfl, hw2n, by rw [hw2d, hw1d]⟩

set_option maxRecDepth 4000 in
theorem returnItBranch_num (scope : Scope) (tp : PyVal) (v rv d1 : PyVal)
    (rd : List JObj) (htp : scope.total_price = some tp)
    (htpn : tp.isNum = true) (hd1 : d1.isNum = true)
    (h1 : rd.get? 1 = some [("type", .pstr "return-it"), ("monthly", v),
      ("residualValue", rv), ("downPayment", d1)]) :
    returnItBranch scope rd = .ok
      ((match v with
        | .pfloat bq => .pstr (formatF2 ((tp.toDec.sub (bq.mulInt 24)).sub d1.toDec))
        | _ => .pstr "N/A"), v, rv) := by
  have ht : getKey [("type", PyVal.pstr "return-it"), ("monthly", v),
      ("residualValue", rv), ("downPayment", d1)] "type" = .ok (.pstr "return-it") := rfl
  have hmv : getKey [("type", PyVal.pstr "return-it"), ("monthly", v),
      ("residualValue", rv), ("downPayment", d1)] "monthly" = .ok v := rfl
  have hrv : getKey [("type", PyVal.pstr "return-it"), ("monthly", v),
      ("residualValue", rv), ("downPayment", d1)] "residualValue" = .ok rv := rfl
  have hdp : getKey [("type", PyVal.pstr "return-it"), ("monthly", v),
      ("residualValue", rv), ("downPayment", d1)] "downPayment" = .ok d1 := rfl
  unfold returnItBranch
  simp only [h1, ht, hmv, hrv, hdp, if_pos rfl]
  cases v with
  | pfloat bq =>
    simp only [if_true, htp, readVar, pySub_num_pfloat tp (bq.mulInt 24) htpn]
    simp only [pyFloat_num d1 hd1, pySub, pyFormatF2]
  | pstr s => rfl
  | pint n => rfl
  | pnone => rfl

/-- C6: for a two-element payload whose first element is a `keep-it` plan
with numeric monthly / down-payment / gift-card values and whose second
element has type `return-it` with `monthly`, `residualValue` and a numeric
`downPayment` present, the normalization succeeds, and: if the BIB monthly
value is a float, `bib_premium` is total price − (bib monthly × 24) − bib
down payment formatted as a 2-decimal string; if it is not a float (an int,
a string, or null), `bib_premium` is the sentinel `"N/A"`. -/
theorem claim6_bib (m0 d0 g v rv d1 : PyVal)
    (hm0 : m0.isNum = true) (hd0 : d0.isNum = true) (hg : g.isNum = true)
    (hd1 : d1.isNum = true) :
    ∃ (o : Offer) (s1 : Scope),
      attemptNorm Scope.empty
        [[("type", .pstr "keep-it"), ("monthly", m0), ("downPayment", d0),
          ("giftCard", g)],
         [("type", .pstr "return-it"), ("monthly", v), ("residualValue", rv),
          ("downPayment", d1)]] = (.ok o, s1) ∧
      o.bib_premium = (match v with
        | .pfloat bq => .pstr (formatF2
            ((((m0.toDec.mulInt 24).add d0.toDec).sub (bq.mulInt 24)).sub d1.toDec))
        | _ => .pstr "N/A") := by
  obtain ⟨tp, pagc, hkeep, htpn, htpd⟩ := keepItBranch_num Scope.empty
    [("type", PyVal.pstr "keep-it"), ("monthly", m0), ("downPayment", d0),
      ("giftCard", g)] m0 d0 g rfl rfl hm0 hd0 hg
  have hret := returnItBranch_num ⟨some tp, some pagc⟩ tp v rv d1
    [[("type", PyVal.pstr "keep-it"), ("monthly", m0), ("downPayment", d0),
      ("giftCard", g)],
     [("type", PyVal.pstr "return-it"), ("monthly", v), ("residualValue", rv),
      ("downPayment", d1)]] rfl htpn hd1 rfl
  have hgi : getItem [[("type", PyVal.pstr "keep-it"), ("monthly", m0),
      ("downPayment", d0), ("giftCard", g)],
     [("type", PyVal.pstr "return-it"), ("monthly", v), ("residualValue", rv),
      ("downPayment", d1)]] 0
      = .ok [("type", PyVal.pstr "keep-it"), ("monthly", m0), ("downPayment", d0),
        ("giftCard", g)] := rfl
  have ht0 : getKey [("type", PyVal.pstr "keep-it"), ("monthly", m0),
      ("downPayment", d0), ("giftCard", g)] "type" = .ok (.pstr "keep-it") := rfl
  have hgc : getKey [("type", PyVal.pstr "keep-it"), ("monthly", m0),
      ("downPayment", d0), ("giftCard", g)] "giftCard" = .ok g := rfl
  unfold attemptNorm
  simp only [hgi, ht0, hgc, if_pos rfl, if_true, hkeep, hret, readVar,
    pyFormatF2_num tp htpn]
  refine ⟨_, _, rfl, ?_⟩
  cases v <;> simp only [htpd]

/-- C6, witness: the BIB-premium theorem instantiated at the spec's example
(keep-it 45.0 / 0 / 50, return-it monthly 30.0, residual 200, down 0 — the
premium is the string "360.00") and at an integer BIB monthly value (the
premium is "N/A"). -/
theorem claim6_witness :
    (∃ (o : Offer) (s1 : Scope),
      attemptNorm Scope.empty
        [[("type", .pstr "keep-it"), ("monthly", .pfloat ⟨450, 1⟩),
          ("downPayment", .pint 0), ("giftCard", .pint 50)],
         [("type", .pstr "return-it"), ("monthly", .pfloat ⟨300, 1⟩),
          ("residualValue", .pint 200), ("downPayment", .pint 0)]] = (.ok o, s1) ∧
      o.bib_premium = .pstr "360.00") ∧
    (∃ (o : Offer) (s1 : Scope),
      attemptNorm Scope.empty
        [[("type", .pstr "keep-it"), ("monthly", .pfloat ⟨450, 1⟩),
          ("downPayment", .pint 0), ("giftCard", .pint 50)],
         [("type", .pstr "return-it"), ("monthly", .pint 30),
          ("residualValue", .pint 200), ("downPayment", .pint 0)]] = (.ok o, s1) ∧
      o.bib_premium = .pstr "N/A") := by
  constructor
  · obtain ⟨o, s1, h1, h2⟩ := claim6_bib (.pfloat ⟨450, 1⟩) (.pint 0) (.pint 50)
      (.pfloat ⟨300, 1⟩) (.pint 200) (.pint 0) rfl rfl rfl rfl
    exact ⟨o, s1, h1, by rw [h2]; decide⟩
  · obtain ⟨o, s1, h1, h2⟩ := claim6_bib (.pfloat ⟨450, 1⟩) (.pint 0) (.pint 50)
      (.pint 30) (.pint 200) (.pint 0) rfl rfl rfl rfl
    exact ⟨o, s1, h1, by rw [h2]⟩

theorem returnItBranch_no_name (scope : Scope) (rd : List JObj) (tp : PyVal)
    (htp : scope.total_price = some tp) (e : PyErr)
    (h : returnItBranch scope rd = .error e) : e ≠ .nameError := by
  unfold returnItBranch at h
  cases h1 : rd.get? 1 with
  | none => simp only [h1] at h; simp at h
  | some e1 =>
    simp only [h1] at h
    cases h2 : getKey e1 "type" with
    | error e2 =>
      simp only [h2] at h
      injection h with hh
      subst hh
      rw [getKey_error_eq h2]
      decide
    | ok t =>
      by_cases ht : t = .pstr "return-it"
      · simp only [h2, if_pos ht] at h
        cases h3 : getKey e1 "monthly" with
        | error e3 =>
          simp only [h3] at h
          injection h with hh
          subst hh
          rw [getKey_error_eq h3]
          decide
        | ok bm =>
          simp only [h3] at h
          cases h4 : getKey e1 "residualValue" with
          | error e4 =>
            simp only [h4] at h
            injection h with hh
            subst hh
            rw [getKey_error_eq h4]
            decide
          | ok dr =>
            simp only [h4] at h
            cases h5 : getKey e1 "downPayment" with
            | error e5 =>
              simp only [h5] at h
              injection h with hh
              subst hh
              rw [getKey_error_eq h5]
              decide
            | ok bdp =>
              simp only [h5] at h
              cases bm with
              | pfloat bq =>
                simp only [htp, readVar] at h
                cases h6 : pySub tp (.pfloat (bq.mulInt 24)) with
                | error e6 =>
                  simp only [h6] at h
                  injection h with hh
                  subst hh
                  rw [pySub_error_eq h6]
                  decide
                | ok diff1 =>
                  simp only [h6] at h
                  cases h7 : pyFloat bdp with
                  | error e7 =>
                    simp only [h7] at h
                    injection h with hh
                    subst hh
                    exact pyFloat_error_ne_name h7
                  | ok dq =>
                    simp only [h7] at h
                    cases h8 : pySub diff1 (.pfloat dq) with
                    | error e8 =>
                      simp only [h8] at h
                      injection h with hh
                      subst hh
                      rw [pySub_error_eq h8]
                      decide
                    | ok diff2 =>
                      simp only [h8] at h
                      cases h9 : pyFormatF2 diff2 with
                      | error e9 =>
                        simp only [h9] at h
                        injection h with hh
                        subst hh
                        rw [pyFormatF2_error_eq h9]
                        decide
                      | ok s => simp only [h9] at h; simp at h
              | pstr s => simp at h
              | pint n => simp at h
              | pnone => simp at h
      · simp only [h2, if_neg ht] at h; simp at h

theorem pyMulInt_error_eq {v : PyVal} {n : ℤ} {e : PyErr}
    (h : pyMulInt v n = .error e) : e = .typeError := by
  cases v <;> simp_all [pyMulInt]

theorem pyAdd_error_eq {a b : PyVal} {e : PyErr}
    (h : pyAdd a b = .error e) : e = .typeError := by
  cases a <;> cases b <;> simp_all [pyAdd]

theorem keepItBranch_error_ne_name {scope : Scope} {e0 : JObj} {g : PyVal}
    {e : PyErr} {s1 : Scope}
    (h : keepItBranch scope e0 g = (.error e, s1)) : e ≠ .nameError := by
  unfold keepItBranch at h
  cases h1 : getKey e0 "monthly" with
  | error e1 =>
    simp only [h1] at h
    injection congrArg Prod.fst h with hh
    rw [← hh, getKey_error_eq h1]
    decide
  | ok m =>
    simp only [h1] at h
    cases h2 : getKey e0 "downPayment" with
    | error e2 =>
      simp only [h2] at h
      injection congrArg Prod.fst h with hh
      rw [← hh, getKey_error_eq h2]
      decide
    | ok d =>
      simp only [h2] at h
      cases h3 : pyMulInt m 24 with
      | error e3 =>
        simp only [h3] at h
        injection congrArg Prod.fst h with hh
        rw [← hh, pyMulInt_error_eq h3]
        decide
      | ok prod =>
        simp only [h3] at h
        cases h4 : pyAdd prod d with
        | error e4 =>
          simp only [h4] at h
          injection congrArg Prod.fst h with hh
          rw [← hh, pyAdd_error_eq h4]
          decide
        | ok total =>
          simp only [h4] at h
          by_cases hgt : pyTruthy g = true
          · simp only [if_pos hgt] at h
            cases h5 : pySub total g with
            | error e5 =>
              simp only [h5] at h
              injection congrArg Prod.fst h with hh
              rw [← hh, pySub_error_eq h5]
              decide
            | ok pagc => simp only [h5] at h; simp at h
          · simp only [if_neg hgt] at h
            simp at h

theorem keepItBranch_ok_scope {scope : Scope} {e0 : JObj} {g : PyVal}
    {pair : PyVal × PyVal} {s1 : Scope}
    (h : keepItBranch scope e0 g = (.ok pair, s1)) :
    (∃ tp, s1.total_price = some tp) ∧ ∃ pagc, s1.price_after_gc = some pagc := by
  unfold keepItBranch at h
  cases h1 : getKey e0 "monthly" with
  | error e1 => simp only [h1] at h; simp at h
  | ok m =>
    simp only [h1] at h
    cases h2 : getKey e0 "downPayment" with
    | error e2 => simp only [h2] at h; simp at h
    | ok d =>
      simp only [h2] at h
      cases h3 : pyMulInt m 24 with
      | error e3 => simp only [h3] at h; simp at h
      | ok prod =>
        simp only [h3] at h
        cases h4 : pyAdd prod d with
        | error e4 => simp only [h4] at h; simp at h
        | ok total =>
          simp only [h4] at h
          by_cases hgt : pyTruthy g = true
          · simp only [if_pos hgt] at h
            cases h5 : pySub total g with
            | error e5 => simp only [h5] at h; simp at h
            | ok pagc =>
              simp only [h5] at h
              have h7 : Scope.mk (some total) (some pagc) = s1 := congrArg Prod.snd h
              rw [← h7]
              exact ⟨⟨total, rfl⟩, ⟨pagc, rfl⟩⟩
          · simp only [if_neg hgt] at h
            have h7 : Scope.mk (some total) (some total) = s1 := congrArg Prod.snd h
            rw [← h7]
            exact ⟨⟨total, rfl⟩, ⟨total, rfl⟩⟩

/-- C8, counterexample: for the empty payload (the "first element absent"
case of the claim) the attempt fails with an *index* error raised by
`response_data[0]` at line 129, before any read of `total_price` or
`price_after_gc` — not with the undefined-name error the claim asserts for
every payload of this class. -/
theorem claim8_cex :
    attemptNorm Scope.empty ([] : List JObj) = (.error .indexError, Scope.empty) ∧
    PyErr.indexError ≠ PyErr.nameError := by
  decide

/-- C8, amended: when the first payload element is absent or its type is not
`keep-it`, the attempt always fails with some error instead of producing an
Offer (with no prior assignment of `total_price` / `price_after_gc` in the
call); the error is the undefined-name error when those reads are actually
reached (e.g. element 0 present with a non-keep-it type and a giftCard
field, and nothing else failing first), but an earlier index or key error
can preempt it; and under the precondition that element 0 has type `keep-it`,
an undefined-name error is unreachable: every failure occurring before both
variables are assigned aborts the attempt with a key, type or value error
instead. -/
theorem claim8_undefined :
    (∀ rd : List JObj,
      (match rd.get? 0 with
        | none => True
        | some e0 => getKey e0 "type" ≠ .ok (.pstr "keep-it")) →
      ∃ (e : PyErr) (s1 : Scope), attemptNorm Scope.empty rd = (.error e, s1)) ∧
    ((attemptNorm Scope.empty [[("type", .pstr "other"), ("giftCard", .pint 0)]]).1
      = .error .nameError) ∧
    (∀ (e0 : JObj) (rest : List JObj),
      getKey e0 "type" = .ok (.pstr "keep-it") →
      (attemptNorm Scope.empty (e0 :: rest)).1 ≠ .error .nameError) := by
  refine ⟨?_, by decide, ?_⟩
  · intro rd hcond
    cases rd with
    | nil => exact ⟨.indexError, Scope.empty, rfl⟩
    | cons e0 rest =>
      have hne : getKey e0 "type" ≠ .ok (.pstr "keep-it") := hcond
      have hgi : getItem (e0 :: rest) 0 = .ok e0 := rfl
      unfold attemptNorm
      cases hk : getKey e0 "type" with
      | error e =>
        simp only [hgi, hk]
        exact ⟨e, Scope.empty, rfl⟩
      | ok t =>
        have ht : ¬(t = .pstr "keep-it") := fun he => hne (by rw [hk, he])
        cases hgc : getKey e0 "giftCard" with
        | error e =>
          simp only [hgi, hk, hgc]
          exact ⟨e, Scope.empty, rfl⟩
        | ok g =>
          simp only [hgi, hk, hgc, if_neg ht]
          cases hr : returnItBranch Scope.empty (e0 :: rest) with
          | error e =>
            simp only [hr]
            exact ⟨e, Scope.empty, rfl⟩
          | ok triple =>
            obtain ⟨bp, bm, dr⟩ := triple
            simp only [hr, Scope.empty, readVar]
            exact ⟨.nameError, ⟨none, none⟩, rfl⟩
  · intro e0 rest hk
    have hgi : getItem (e0 :: rest) 0 = .ok e0 := rfl
    unfold attemptNorm
    simp only [hgi, hk]
    cases hgc : getKey e0 "giftCard" with
    | error e =>
      simp only [hgc]
      intro hc
      have hh : e = .nameError := by simpa using hc
      rw [getKey_error_eq hgc] at hh
      simp at hh
    | ok g =>
      simp only [hgc, if_pos rfl, if_true]
      cases hkb : keepItBranch Scope.empty e0 g with
      | mk res s1 =>
        cases res with
        | error e =>
          intro hc
          have hh : e = .nameError := by simpa using hc
          exact keepItBranch_error_ne_name hkb hh
        | ok pair =>
          obtain ⟨mp, dp⟩ := pair
          obtain ⟨⟨tp, htp⟩, pagc, hpagc⟩ := keepItBranch_ok_scope hkb
          cases hr : returnItBranch s1 (e0 :: rest) with
          | error e =>
            simp only [hr]
            intro hc
            have hh : e = .nameError := by simpa using hc
            exact returnItBranch_no_name s1 (e0 :: rest) tp htp e hr hh
          | ok triple =>
            obtain ⟨bp, bm, dr⟩ := triple
            simp only [hr, htp, hpagc, readVar]
            cases hf : pyFormatF2 tp with
            | error e =>
              simp only [hf]
              intro hc
              have hh : e = .nameError := by simpa using hc
              rw [pyFormatF2_error_eq hf] at hh
              simp at hh
            | ok s2 =>
              simp only [hf]
              simp

/-- C8, witness: the amended theorem applied to the empty payload (the
attempt fails) and to a well-formed keep-it payload (no undefined-name
error). -/
theorem claim8_witness :
    (∃ (e : PyErr) (s1 : Scope),
      attemptNorm Scope.empty ([] : List JObj) = (.error e, s1)) ∧
    (attemptNorm Scope.empty [[("type", .pstr "keep-it"), ("monthly", .pint 1),
      ("downPayment", .pint 0), ("giftCard", .pint 0)]]).1 ≠ .error .nameError :=
  ⟨claim8_undefined.1 [] trivial,
   claim8_undefined.2.2 [("type", .pstr "keep-it"), ("monthly", .pint 1),
      ("downPayment", .pint 0), ("giftCard", .pint 0)] [] rfl⟩

end BBM
